import Mathlib

/-!
Verification of the Discord TV Guide Bot core (`bot.js`) against its
natural-language specification.

The definitions below are a shallow embedding of the relevant parts of the
source:

* the consensus voting engine shared by the mode-switch poll (`!custom`,
  `remote_custom`), the skip poll (`!skip`, `remote_skipvote`) and the
  file-play confirmation poll (browse selection poll) — all three sites use
  the identical collect/end handler pattern (`votedUsers` set, `yesVotes`,
  `noVotes`, `pollPassed = yesVotes > noVotes`);
* the YouTube download queue (`youtubeQueue`, `isYoutubeDownloadActive`,
  `currentDownloadJob`, `currentAbortController`, `processYoutubeQueue`,
  `!cancel`, `!cancelall`);
* the mode orchestrator (`isCustomModeActive`, the `!custom` poll end
  handler, `endCustomMode`, the admin `!toggle` handler);
* the skip handler (`!skip`): two-user bypass, poll duration from the
  consecutive-skip streak, streak updates;
* subfolder sanitisation and validation (`sanitizeSubfolderName`, the
  subfolder block of `processYoutubeQueue`);
* the managed scheduled-event rename (`updateEventNameInternal`).
-/

namespace TVGuideBot

/-! ## Consensus voting engine

Embedding of the poll collector pattern, identical at every poll site
(`bot.js` lines 4155/4161 for the custom poll, 4348/4354 for the skip poll,
2008/2054 for the browse confirmation poll): a `votedUsers` set, two
counters, duplicate ballots silently ignored, and resolution by
`yesVotes > noVotes`. -/

/-- One button press: the pressing user's id and whether the pressed button
was the yes button (`customId === '..._poll_yes'`). -/
structure Ballot where
  voter : Nat
  isYes : Bool
deriving DecidableEq, Repr

/-- The mutable state of one poll: `votedUsers`, `yesVotes`, `noVotes`. -/
structure PollState where
  votedUsers : List Nat
  yesVotes : Nat
  noVotes : Nat
deriving DecidableEq, Repr

/-- `let yesVotes = 0; let noVotes = 0; const votedUsers = new Set();` -/
def PollState.start : PollState := ⟨[], 0, 0⟩

/-- The `collect` handler: `if (votedUsers.has(i.user.id)) return;
votedUsers.add(i.user.id); if (i.customId === '..._yes') yesVotes++;
else noVotes++;` -/
def collectBallot (st : PollState) (b : Ballot) : PollState :=
  if b.voter ∈ st.votedUsers then st
  else
    { votedUsers := b.voter :: st.votedUsers
      yesVotes := if b.isYes then st.yesVotes + 1 else st.yesVotes
      noVotes := if b.isYes then st.noVotes else st.noVotes + 1 }

/-- The tallies reached at resolution time after the ballots arrived in
order. -/
def runPoll (ballots : List Ballot) : PollState :=
  ballots.foldl collectBallot PollState.start

/-- The resolution rule in every `end` handler:
`let pollPassed = yesVotes > noVotes;`. -/
def pollPassed (st : PollState) : Bool :=
  decide (st.noVotes < st.yesVotes)

/-- Invariant threaded through ballot collection: the two counters add up to
the number of distinct identities that voted, and no identity is recorded
twice. -/
def PollStateWF (st : PollState) : Prop :=
  st.yesVotes + st.noVotes = st.votedUsers.length ∧ st.votedUsers.Nodup

/-! ## Download queue

Embedding of the queue globals (`bot.js` lines 136-152) and of the parts of
`processYoutubeQueue` (lines 1321-1342 and the `finally` block at
1715-1729), the `!cancel` handler (4519-4532) and the `!cancelall` handler
(4549-4557) that touch them.  `seq` is the creation order of a job (ghost
data recording arrival order); `startedSeqs` is a ghost history of the
arrival indices of the jobs that have been made Active, in the order they
were started. -/

/-- One `YoutubeQueueItem`: source URL and requesting user (`job.user.id`),
plus the ghost arrival index. -/
structure DownloadJob where
  url : String
  userId : Nat
  seq : Nat
deriving DecidableEq, Repr

/-- The queue-related globals: `youtubeQueue`, `isYoutubeDownloadActive`,
`currentDownloadJob`, `currentAbortController` (modelled as
`some aborted?` while a controller exists, `none` otherwise), plus the two
ghost fields. -/
structure QueueState where
  youtubeQueue : List DownloadJob
  isYoutubeDownloadActive : Bool
  currentDownloadJob : Option DownloadJob
  currentAbortController : Option Bool
  startedSeqs : List Nat
  nextSeq : Nat
deriving DecidableEq, Repr

/-- Initial globals: empty queue, no active download, no controller. -/
def QueueState.boot : QueueState := ⟨[], false, none, none, [], 0⟩

/-- `youtubeQueue.push(queueItem)` — every enqueue site appends at the
back. -/
def pushJob (st : QueueState) (url : String) (userId : Nat) : QueueState :=
  { st with
    youtubeQueue := st.youtubeQueue ++ [⟨url, userId, st.nextSeq⟩]
    nextSeq := st.nextSeq + 1 }

/-- Entry of `processYoutubeQueue` (lines 1325-1342): return if a download
is active or the queue is empty, otherwise set the lock, `shift()` the
front job and create its `AbortController`. -/
def processQueueStep (st : QueueState) : QueueState :=
  if st.isYoutubeDownloadActive then st
  else
    match st.youtubeQueue with
    | [] => st
    | j :: rest =>
        { st with
          isYoutubeDownloadActive := true
          currentDownloadJob := some j
          youtubeQueue := rest
          currentAbortController := some false
          startedSeqs := st.startedSeqs ++ [j.seq] }

/-- The `finally` block (lines 1722-1725), run when the active job reaches
any terminal state (succeeded, failed or cancelled): release the lock and
clear the job and controller references.  The block then schedules another
`processYoutubeQueue` run via `setTimeout`. -/
def finishCurrent (st : QueueState) : QueueState :=
  { st with
    isYoutubeDownloadActive := false
    currentDownloadJob := none
    currentAbortController := none }

/-- `currentDownloadJob?.user?.id === userId` -/
def jobBelongsTo (j : Option DownloadJob) (userId : Nat) : Bool :=
  match j with
  | some job => job.userId == userId
  | none => false

/-- Core of the `!cancel` handler (lines 4524-4532): abort the active
download only when it belongs to the requester, then filter the
requester's jobs out of the queue. -/
def cancelUserDownloads (st : QueueState) (userId : Nat) : QueueState :=
  { st with
    currentAbortController :=
      if st.isYoutubeDownloadActive && jobBelongsTo st.currentDownloadJob userId
          && st.currentAbortController.isSome
      then some true else st.currentAbortController
    youtubeQueue := st.youtubeQueue.filter (fun j => j.userId != userId) }

/-- Core of the `!cancelall` handler (lines 4552-4557): abort the active
download regardless of owner, then clear the whole queue. -/
def cancelAllDownloads (st : QueueState) : QueueState :=
  { st with
    currentAbortController :=
      if st.isYoutubeDownloadActive && st.currentAbortController.isSome
      then some true else st.currentAbortController
    youtubeQueue := [] }

/-- The events that touch the queue globals.  `finish` is the `finally`
block of the active job; the `processYoutubeQueue` run it schedules appears
as a subsequent `process` event (likewise for the `setTimeout` runs
scheduled after each push). -/
inductive QueueEvent where
  | push (url : String) (userId : Nat)
  | process
  | finish
  | cancelUser (userId : Nat)
  | cancelAll
deriving DecidableEq, Repr

/-- One step of the queue state machine. -/
def queueStep (st : QueueState) : QueueEvent → QueueState
  | .push url userId => pushJob st url userId
  | .process => processQueueStep st
  | .finish => if st.isYoutubeDownloadActive then finishCurrent st else st
  | .cancelUser userId => cancelUserDownloads st userId
  | .cancelAll => cancelAllDownloads st

/-- The state reached from boot after a sequence of events. -/
def runQueue (es : List QueueEvent) : QueueState :=
  es.foldl queueStep QueueState.boot

/-- Queue invariant: the lock agrees with the presence of a current job and
of a controller; queued jobs are in strict arrival order, all below
`nextSeq`; started jobs were started in strict arrival order, before every
job still queued. -/
structure QueueWF (st : QueueState) : Prop where
  activeIff : st.isYoutubeDownloadActive = st.currentDownloadJob.isSome
  ctrlIff : st.currentAbortController.isSome = st.isYoutubeDownloadActive
  queueSorted : st.youtubeQueue.Pairwise (fun a b => a.seq < b.seq)
  queueBound : ∀ j ∈ st.youtubeQueue, j.seq < st.nextSeq
  startedSorted : st.startedSeqs.Pairwise (· < ·)
  startedBelowQueue : ∀ s ∈ st.startedSeqs, ∀ j ∈ st.youtubeQueue, s < j.seq
  startedBound : ∀ s ∈ st.startedSeqs, s < st.nextSeq

/-- Replies of the two cancel command handlers. -/
inductive CancelReply where
  | notCustomMode
  | notConfigured
  | noPermission
  | report (activeCancelled : Bool) (removedCount : Nat)
deriving DecidableEq, Repr

/-- The `!cancel` command handler (lines 4512-4538): refuse outside Custom
mode, refuse when the download folder is unconfigured, otherwise cancel the
requester's downloads and report what was cancelled. -/
def cancelCommand (isCustomModeActive videoFolderConfigured : Bool)
    (st : QueueState) (userId : Nat) : QueueState × CancelReply :=
  if !isCustomModeActive then (st, .notCustomMode)
  else if !videoFolderConfigured then (st, .notConfigured)
  else
    (cancelUserDownloads st userId,
      .report
        (st.isYoutubeDownloadActive && jobBelongsTo st.currentDownloadJob userId
          && st.currentAbortController.isSome)
        (st.youtubeQueue.length -
          (st.youtubeQueue.filter (fun j => j.userId != userId)).length))

/-- The `!cancelall` command handler (lines 4543-4559): admin check, then
the same Custom-mode and configuration preconditions, then cancel
everything. -/
def cancelAllCommand (userIsAdmin isCustomModeActive videoFolderConfigured : Bool)
    (st : QueueState) : QueueState × CancelReply :=
  if !userIsAdmin then (st, .noPermission)
  else if !isCustomModeActive then (st, .notCustomMode)
  else if !videoFolderConfigured then (st, .notConfigured)
  else
    (cancelAllDownloads st,
      .report (st.isYoutubeDownloadActive && st.currentAbortController.isSome)
        st.youtubeQueue.length)

/-! ## Mode orchestrator

Embedding of the mode globals (`isCustomModeActive`,
`consecutiveSkipVotes`, the custom-mode timer, the VLC title-check
interval, the still-watching prompt) and of the three transition sites the
claims name: the `!custom` poll `end` handler (lines 4156-4191),
`endCustomMode` (lines 1094-1177) and the admin `!toggle` handler (lines
4477-4508).  External script execution is a collaborator: a transition
function takes the result the script run would produce as a parameter, and
records in `scriptsRun` which scripts it actually invoked. -/

/-- Outcome of a `runAhkScript` call: resolved, or threw. -/
inductive ScriptResult where
  | ok
  | err
deriving DecidableEq, Repr

/-- The orchestrator-owned globals. -/
structure ModeState where
  isCustomModeActive : Bool
  consecutiveSkipVotes : Nat
  customModeTimerRunning : Bool
  vlcTitleCheckRunning : Bool
  stillWatchingPromptShown : Bool
deriving DecidableEq, Repr

/-- User-visible outcome of the `!custom` poll resolution. -/
inductive CustomPollOutcome where
  | pollFailed
  | scriptFailed
  | switched
deriving DecidableEq, Repr

/-- The `!custom` poll `end` handler (lines 4161-4186): on `yes > no` run
the switch-to-custom script; only if it resolves set
`isCustomModeActive = true`, reset the skip streak and start the timers; if
it throws, leave every flag as it was and report the failure ("Custom mode
remains OFF"). -/
def customPollEnd (st : ModeState) (yesVotes noVotes : Nat)
    (enterScript : ScriptResult) : ModeState × CustomPollOutcome :=
  if noVotes < yesVotes then
    match enterScript with
    | .ok =>
        ({ st with
            isCustomModeActive := true
            consecutiveSkipVotes := 0
            customModeTimerRunning := true
            vlcTitleCheckRunning := true },
          .switched)
    | .err => (st, .scriptFailed)
  else (st, .pollFailed)

/-- User-visible feedback of `endCustomMode`. -/
inductive EndCustomFeedback where
  | alreadyInactive
  | switchedBack
  | scriptFailed
deriving DecidableEq, Repr

/-- `endCustomMode` (lines 1094-1177): timers and prompt are torn down
unconditionally first; if custom mode is not active nothing further
happens; otherwise run the switch-back script, and only on success set
`isCustomModeActive = false` and reset the skip streak (the code comments:
"We do NOT change isCustomModeActive here because the script failed").
Returns the new state, the boolean result, and the feedback sent. -/
def endCustomMode (st : ModeState) (backScript : ScriptResult) :
    ModeState × Bool × EndCustomFeedback :=
  let st1 := { st with
    customModeTimerRunning := false
    vlcTitleCheckRunning := false
    stillWatchingPromptShown := false }
  if st1.isCustomModeActive = false then (st1, false, .alreadyInactive)
  else
    match backScript with
    | .ok =>
        ({ st1 with isCustomModeActive := false, consecutiveSkipVotes := 0 },
          true, .switchedBack)
    | .err => (st1, false, .scriptFailed)

/-- Replies of the admin `!toggle` handler. -/
inductive ToggleReply where
  | noPermission
  | notConfigured
  | toggledToCustom
  | toggledFromCustom
deriving DecidableEq, Repr

/-- Result of a `!toggle` invocation: the new globals, the names of the AHK
scripts the handler executed, and the reply sent. -/
structure ToggleEffect where
  state : ModeState
  scriptsRun : List String
  reply : ToggleReply
deriving DecidableEq, Repr

/-- The admin `!toggle` handler (lines 4477-4508): after the permission and
configuration checks it flips `isCustomModeActive` unconditionally, adjusts
the timers, resets the skip streak and replies "(AHK Scripts NOT run)" —
`runAhkScript` is never called anywhere in the handler, so `scriptsRun` is
empty on both paths. -/
def toggleCommand (userIsAdmin configOk : Bool) (st : ModeState) :
    ToggleEffect :=
  if !userIsAdmin then ⟨st, [], .noPermission⟩
  else if !configOk then ⟨st, [], .notConfigured⟩
  else if !st.isCustomModeActive then
    ⟨{ st with
        isCustomModeActive := true
        consecutiveSkipVotes := 0
        customModeTimerRunning := true
        vlcTitleCheckRunning := true },
      [], .toggledToCustom⟩
  else
    ⟨{ st with
        isCustomModeActive := false
        consecutiveSkipVotes := 0
        customModeTimerRunning := false
        vlcTitleCheckRunning := false
        stillWatchingPromptShown := false },
      [], .toggledFromCustom⟩

/-! ## Skip handler

Embedding of the `!skip` command (lines 4294-4384): the two-user bypass
check, the poll-duration computation from the consecutive-skip streak, and
the streak updates of the bypass branch (4313-4322) and of the poll `end`
handler (4354-4376).  The `remote_skipvote` button handler (3245-3378) is
line-for-line identical in these respects. -/

def SKIP_POLL_TIMEOUT_MS : Int := 30 * 1000

def MIN_SKIP_POLL_DURATION_MS : Int := 5000

def SKIP_POLL_DECREMENT_MS : Int := 5000

/-- `Math.max(MIN_SKIP_POLL_DURATION_MS, SKIP_POLL_TIMEOUT_MS -
(consecutiveSkipVotes * SKIP_POLL_DECREMENT_MS))` (line 4331). -/
def currentSkipPollTimeoutMs (consecutiveSkipVotes : Nat) : Int :=
  max MIN_SKIP_POLL_DURATION_MS
    (SKIP_POLL_TIMEOUT_MS - consecutiveSkipVotes * SKIP_POLL_DECREMENT_MS)

/-- What the voice-channel fetch of the bypass check observed:
a voice channel with `humanCount` non-bot members, a non-voice (or
missing) channel, or a thrown fetch error. -/
inductive VoiceChannelCheck where
  | voice (humanCount : Nat)
  | notVoice
  | fetchFailed
deriving DecidableEq, Repr

/-- Which way the `!skip` command goes after the bypass check. -/
inductive SkipRoute where
  | bypassRunScript
  | startPoll
deriving DecidableEq, Repr

/-- The bypass check (lines 4305-4326): `if (humanMembers.size === 2)` run
the skip script immediately and return; every other situation (other
counts, non-voice channel, fetch error) proceeds to the poll. -/
def skipRoute (vc : VoiceChannelCheck) : SkipRoute :=
  match vc with
  | .voice n => if n == 2 then .bypassRunScript else .startPoll
  | .notVoice => .startPoll
  | .fetchFailed => .startPoll

/-- One resolved skip attempt: a poll with its final tallies and, when it
passed, the result of the skip script; or a two-user bypass with the
result of the skip script. -/
inductive SkipEvent where
  | poll (yesVotes noVotes : Nat) (script : ScriptResult)
  | bypass (script : ScriptResult)
deriving DecidableEq, Repr

/-- How one skip attempt updates `consecutiveSkipVotes`: a passed poll
whose script resolves increments it (line 4357); a passed poll whose
script throws resets it (line 4368); a failed or tied poll resets it (line
4374); a bypass whose script resolves increments it (line 4315); a bypass
whose script throws leaves it unchanged (the catch at 4317-4322 does not
touch the counter). -/
def skipStreakStep (streak : Nat) : SkipEvent → Nat
  | .poll yesVotes noVotes script =>
      if noVotes < yesVotes then
        match script with
        | .ok => streak + 1
        | .err => 0
      else 0
  | .bypass script =>
      match script with
      | .ok => streak + 1
      | .err => streak

/-- The streak reached from 0 after a sequence of skip attempts. -/
def runSkipStreak (events : List SkipEvent) : Nat :=
  events.foldl skipStreakStep 0

/-! ## Subfolder sanitisation and validation

Embedding of `sanitizeSubfolderName` (lines 721-740, with
`INVALID_PATH_CHARS_REGEX = /[<>:"\/\\|?*\x00-\x1f]|\.\.|\.\x24|^\./g`
from line 66) and of the subfolder block of `processYoutubeQueue` (lines
1364-1391) together with the initial status message (lines 1478-1485).
Strings are worked on as their character lists. -/

/-- A Windows path separator, as `path.basename` treats them. -/
def isPathSep (c : Char) : Bool := c = '/' || c = '\\'

def isAsciiLetter (c : Char) : Bool :=
  ('a' ≤ c && c ≤ 'z') || ('A' ≤ c && c ≤ 'Z')

/-- `path.basename(name)` on win32: skip a leading drive prefix `X:`,
ignore trailing separators, and return what follows the last remaining
separator. -/
def win32Basename (s : List Char) : List Char :=
  let rest :=
    match s with
    | a :: b :: _ => if isAsciiLetter a && b = ':' then s.drop 2 else s
    | _ => s
  let trimmed := (rest.reverse.dropWhile isPathSep).reverse
  (trimmed.reverse.takeWhile (fun c => !isPathSep c)).reverse

/-- The character class `[<>:"\/\\|?*\x00-\x1f]` of
`INVALID_PATH_CHARS_REGEX`. -/
def invalidPathChar (c : Char) : Bool :=
  c = '<' || c = '>' || c = ':' || c = '"' || c = '/' || c = '\\' ||
    c = '|' || c = '?' || c = '*' || decide (c.toNat ≤ 0x1f)

/-- Global replacement of `INVALID_PATH_CHARS_REGEX` by `'_'` at every
position after the first: the scanner tries, in order, the character class,
`".."` (consuming two characters), and a dot at the very end of the string;
`^\.` cannot match past position zero.  Each match becomes one
underscore. -/
def replaceInvalidTail : List Char → List Char
  | [] => []
  | [c] =>
    if invalidPathChar c then ['_']
    else if c = '.' then ['_']
    else [c]
  | c :: d :: rest =>
    if invalidPathChar c then '_' :: replaceInvalidTail (d :: rest)
    else if c = '.' && d = '.' then '_' :: replaceInvalidTail rest
    else c :: replaceInvalidTail (d :: rest)

/-- Global replacement of `INVALID_PATH_CHARS_REGEX` =
`[<>:"\/\\|?*\x00-\x1f]|\.\.|\.\x24|^\./g` by `'_'`: position zero
additionally tries the `^\.` alternative (after the class, `".."` and the
end-of-string dot, in the regex's alternation order); every later position
is handled by `replaceInvalidTail`. -/
def replaceInvalid (s : List Char) : List Char :=
  match s with
  | [] => []
  | c :: rest =>
    if invalidPathChar c then '_' :: replaceInvalidTail rest
    else if c = '.' && rest.head? = some '.' then
      '_' :: replaceInvalidTail rest.tail
    else if c = '.' && rest.isEmpty then ['_']
    else if c = '.' then '_' :: replaceInvalidTail rest
    else c :: replaceInvalidTail rest

/-- JS `\s` / `String.prototype.trim` whitespace, restricted to the
characters that can still occur here. -/
def isJsWhitespace (c : Char) : Bool :=
  c = ' ' || c = '\t' || c = '\n' || c = '\r' ||
    decide (c.toNat = 0x0b) || decide (c.toNat = 0x0c) ||
    decide (c.toNat = 0xa0) || decide (c.toNat = 0xfeff)

/-- `.replace(/\s+/g, '_')`: every maximal whitespace run becomes one
underscore. -/
def collapseWhitespace : Bool → List Char → List Char
  | _, [] => []
  | prevWs, c :: rest =>
    if isJsWhitespace c then
      if prevWs then collapseWhitespace true rest
      else '_' :: collapseWhitespace true rest
    else c :: collapseWhitespace false rest

/-- `.replace(/^_+|_+\x24/g, '')`: strip the leading and trailing
underscore runs. -/
def trimUnderscores (s : List Char) : List Char :=
  ((s.dropWhile (fun c => c = '_')).reverse.dropWhile
    (fun c => c = '_')).reverse

/-- JS `.trim()`. -/
def jsTrim (s : List Char) : List Char :=
  ((s.dropWhile isJsWhitespace).reverse.dropWhile isJsWhitespace).reverse

/-- Steps 1-3 of `sanitizeSubfolderName`: basename, the invalid-character
and whitespace replacements, the underscore strip and the final trim. -/
def cleanSubfolderChars (name : String) : List Char :=
  jsTrim (trimUnderscores (collapseWhitespace false
    (replaceInvalid (win32Basename name.data))))

/-- `sanitizeSubfolderName` (lines 721-740): `none` models the `null`
returns (non-string/empty input, or a name that is empty once cleaned);
otherwise the cleaned name capped at 50 characters. -/
def sanitizeSubfolderName (name : String) : Option String :=
  if name = "" then none
  else if (cleanSubfolderChars name).isEmpty then none
  else some (String.mk ((cleanSubfolderChars name).take 50))

/-- Outcome of the subfolder block of `processYoutubeQueue`: the directory
the job will download into, the subfolder actually used, and whether the
user must be warned that the requested subfolder was invalid. -/
structure SubfolderResolution where
  finalDownloadPath : String
  subfolderUsedName : Option String
  subfolderWarningSent : Bool
deriving DecidableEq, Repr

/-- `path.join(videoDownloadFolder, sanitizedSubfolder)` on Windows. -/
def winJoin (a b : String) : String := a ++ "\\" ++ b

/-- The subfolder block (lines 1364-1391): sanitize the requested name,
`stat` the joined path (`isDir p` abstracts "the stat succeeded and the
path is a directory"; a thrown stat error is `isDir = false` — both
branches default to the root folder and set the warning flag), and fall
back to the root download folder whenever anything is wrong.  The job is
processed in every case. -/
def resolveDownloadPath (isDir : String → Bool) (videoDownloadFolder : String)
    (requestedSubfolder : Option String) : SubfolderResolution :=
  match requestedSubfolder with
  | none => ⟨videoDownloadFolder, none, false⟩
  | some req =>
    match sanitizeSubfolderName req with
    | some s =>
        if isDir (winJoin videoDownloadFolder s) then
          ⟨winJoin videoDownloadFolder s, some s, false⟩
        else ⟨videoDownloadFolder, none, true⟩
    | none => ⟨videoDownloadFolder, none, true⟩

/-- Whether the initial status message (lines 1479-1485) carries the
"Subfolder … not found/invalid. Saving to main folder." warning line. -/
def initialStatusHasWarning (r : SubfolderResolution)
    (requestedSubfolder : Option String) : Bool :=
  match r.subfolderUsedName with
  | some _ => false
  | none => r.subfolderWarningSent && requestedSubfolder.isSome

/-! ## Managed event rename

Embedding of `updateEventNameInternal` (lines 450-551).  The Discord API
is the environment: the function records, in order, which external calls
it makes (`findOrCreateManagedEvent`, the forced `fetch`, the renaming
`edit`, `setStatus(Active)`), and takes the environment's answers to the
first two as parameters. -/

/-- External status of the managed scheduled event. -/
inductive EventStatus where
  | scheduled
  | active
  | completed
  | canceled
deriving DecidableEq, Repr

/-- `GuildScheduledEventStatus.Completed || Canceled`. -/
def EventStatus.isTerminal : EventStatus → Bool
  | .completed => true
  | .canceled => true
  | _ => false

/-- The cached `managedGuildEvent` reference: last-known name and status,
and whether `scheduledStartTimestamp < Date.now()`. -/
structure EventHandle where
  name : String
  status : EventStatus
  startPassed : Bool
deriving DecidableEq, Repr

/-- The external calls `updateEventNameInternal` can make:
`findOrCreateManagedEvent` (line 462), the forced state fetch (line 502),
the renaming `edit` (line 523), `setStatus(Active)` (line 532), and the
post-activation state refresh `fetch(true)` (line 534). -/
inductive EventCall where
  | findOrCreate
  | fetchEvent
  | editName (newName : String)
  | setActive
  | refreshEvent
deriving DecidableEq, Repr

/-- Environment answers for the fallible external calls:
what `findOrCreateManagedEvent` would return; what the forced fetch at
line 502 would resolve to (its `.catch(() => null)` turns a rejection into
`none`); whether the `edit` at 523 would throw; whether the
`setStatus(Active)` at 532 would throw; what the refresh `fetch(true)` at
534 would return (`none` = it throws, there is no catch on it); and
whether a thrown error is an unknown-event error (`error.code === 10062`
or an 'Unknown Scheduled Event' message, line 545), which makes the catch
clear the cached reference. -/
structure EventEnv where
  reacquired : Option EventHandle
  fetched : Option EventHandle
  editThrows : Bool
  setActiveThrows : Bool
  refreshed : Option EventHandle
  errorClearsHandle : Bool
deriving DecidableEq, Repr

/-- Result of one `updateEventNameInternal` run: the new cached reference,
the external calls made in order, and the boolean return value. -/
structure EventUpdateResult where
  handle : Option EventHandle
  calls : List EventCall
  ok : Bool
deriving DecidableEq, Repr

/-- Name validation and formatting (lines 475-496): reject an
empty-after-trim name (unless custom mode forces "Custom Channel"), apply
the "Custom Channel: " marker in custom mode, trim, and cap at Discord's
100-character limit.  `none` models the abandoning `return false`. -/
def computeFinalEventName (custom : Bool) (cachedName newName : String) :
    Option String :=
  let nameToSet :=
    if (jsTrim newName.data).isEmpty then
      if custom && cachedName != "Custom Channel" then some "Custom Channel"
      else none
    else some newName
  match nameToSet with
  | none => none
  | some n0 =>
      let n1 :=
        if custom && n0 != "Custom Channel" then "Custom Channel: " ++ n0
        else n0
      some (String.mk ((jsTrim n1.data).take 100))

/-- The `catch` block (lines 539-550): an error thrown by `edit`,
`setStatus` or the refresh lands here; the cached reference is cleared
only for unknown-event errors, and the run returns `false`. -/
def catchReturn (cached : Option EventHandle) (env : EventEnv)
    (calls : List EventCall) : EventUpdateResult :=
  ⟨if env.errorClearsHandle then none else cached, calls, false⟩

/-- The activation block (lines 530-535): when the event is still
Scheduled with its start time passed, call `setStatus(Active)` and then
refresh the event with `fetch(true)`, storing the refreshed handle in
`managedGuildEvent`; a throw from either call goes to the catch.
Otherwise the run ends successfully with the cache as it stands. -/
def activate (cur : EventHandle) (cached : Option EventHandle)
    (env : EventEnv) (calls : List EventCall) : EventUpdateResult :=
  if cur.status = .scheduled && cur.startPassed then
    if env.setActiveThrows then catchReturn cached env (calls ++ [.setActive])
    else
      match env.refreshed with
      | none => catchReturn cached env (calls ++ [.setActive, .refreshEvent])
      | some r => ⟨some r, calls ++ [.setActive, .refreshEvent], true⟩
  else ⟨cached, calls, true⟩

/-- Lines 520-535: the renaming `edit` when the (possibly fetched) name
still differs from the computed one — its throw goes to the catch — and
then the activation block. -/
def editAndActivate (cur : EventHandle) (cached : Option EventHandle)
    (env : EventEnv) (finalName : String) (calls : List EventCall) :
    EventUpdateResult :=
  if cur.name != finalName then
    if env.editThrows then
      catchReturn cached env (calls ++ [.editName finalName])
    else activate cur cached env (calls ++ [.editName finalName])
  else activate cur cached env calls

/-- `updateEventNameInternal(newName)` (lines 450-551): prerequisite check,
re-acquisition of a missing/terminal handle, name computation, a state
fetch only when the computed name differs from the cached one (its
`.catch` maps a rejection to the explicit `return false` at 503-507),
the terminal re-check at 514, then `editAndActivate`.  The cached
reference is only reassigned where the source reassigns
`managedGuildEvent` (re-acquisition, the forced fetch, the post-activation
refresh at 534, and the `null` resets on failure). -/
def updateEventNameInternal (hasTargetChannel custom : Bool)
    (managedGuildEvent : Option EventHandle) (env : EventEnv)
    (newName : String) : EventUpdateResult :=
  if !hasTargetChannel then ⟨managedGuildEvent, [], false⟩
  else
    let acquired : Option EventHandle × List EventCall :=
      match managedGuildEvent with
      | none => (env.reacquired, [.findOrCreate])
      | some h =>
          if h.status.isTerminal then (env.reacquired, [.findOrCreate])
          else (some h, [])
    match acquired with
    | (none, calls) => ⟨none, calls, false⟩
    | (some h, calls) =>
      match computeFinalEventName custom h.name newName with
      | none => ⟨some h, calls, false⟩
      | some finalName =>
        if h.name != finalName then
          match env.fetched with
          | none => ⟨none, calls ++ [.fetchEvent], false⟩
          | some f =>
              if f.status.isTerminal then
                ⟨none, calls ++ [.fetchEvent], false⟩
              else
                editAndActivate f (some f) env finalName
                  (calls ++ [.fetchEvent])
        else
          if h.status.isTerminal then ⟨none, calls, false⟩
          else editAndActivate h (some h) env finalName calls

end TVGuideBot

namespace TVGuideBot

theorem collectBallot_wf {st : PollState} (b : Ballot) (h : PollStateWF st) :
    PollStateWF (collectBallot st b) := by
  obtain ⟨hsum, hnodup⟩ := h
  unfold collectBallot PollStateWF
  by_cases hv : b.voter ∈ st.votedUsers
  · simp [hv, hsum, hnodup]
  · by_cases hy : b.isYes <;>
      simp [hv, hy, List.nodup_cons, hnodup] <;> omega

theorem foldl_collectBallot_wf (bs : List Ballot) {st : PollState}
    (h : PollStateWF st) : PollStateWF (bs.foldl collectBallot st) := by
  induction bs generalizing st with
  | nil => exact h
  | cons b rest ih => exact ih (collectBallot_wf b h)

theorem runPoll_wf (bs : List Ballot) : PollStateWF (runPoll bs) :=
  foldl_collectBallot_wf bs ⟨rfl, List.nodup_nil⟩

theorem collectBallot_tally_le (st : PollState) (b : Ballot) :
    (collectBallot st b).yesVotes + (collectBallot st b).noVotes ≤
      st.yesVotes + st.noVotes + 1 := by
  unfold collectBallot
  by_cases hv : b.voter ∈ st.votedUsers
  · simp [hv]
  · by_cases hy : b.isYes <;> simp [hv, hy] <;> omega

theorem foldl_collectBallot_tally_le (bs : List Ballot) (st : PollState) :
    (bs.foldl collectBallot st).yesVotes + (bs.foldl collectBallot st).noVotes ≤
      st.yesVotes + st.noVotes + bs.length := by
  induction bs generalizing st with
  | nil => simp
  | cons b rest ih =>
      calc ((b :: rest).foldl collectBallot st).yesVotes +
            ((b :: rest).foldl collectBallot st).noVotes ≤
          (collectBallot st b).yesVotes + (collectBallot st b).noVotes +
            rest.length := ih (collectBallot st b)
        _ ≤ st.yesVotes + st.noVotes + 1 + rest.length := by
            have := collectBallot_tally_le st b; omega
        _ = st.yesVotes + st.noVotes + (b :: rest).length := by
            simp; omega

/-- C1: at resolution a vote passes iff the yes tally strictly exceeds the
no tally (so any tie, including 0-0, fails); a ballot from an identity that
has already voted leaves the state (hence both tallies) unchanged; and the
tallies add up to the number of distinct identities that voted, which is at
most the number of ballots cast. -/
theorem vote_simple_majority_one_ballot_per_identity :
    (∀ bs : List Ballot,
        (pollPassed (runPoll bs) = true ↔
          (runPoll bs).noVotes < (runPoll bs).yesVotes)) ∧
    (∀ bs : List Ballot, (runPoll bs).yesVotes = (runPoll bs).noVotes →
        pollPassed (runPoll bs) = false) ∧
    pollPassed (runPoll []) = false ∧
    (∀ (st : PollState) (b : Ballot), b.voter ∈ st.votedUsers →
        collectBallot st b = st) ∧
    (∀ bs : List Ballot,
        (runPoll bs).yesVotes + (runPoll bs).noVotes =
            (runPoll bs).votedUsers.length ∧
          (runPoll bs).votedUsers.Nodup ∧
          (runPoll bs).yesVotes + (runPoll bs).noVotes ≤ bs.length) := by
  refine ⟨?_, ?_, ?_, ?_, ?_⟩
  · intro bs
    simp [pollPassed]
  · intro bs h
    simp [pollPassed, h]
  · rfl
  · intro st b h
    unfold collectBallot
    simp [h]
  · intro bs
    obtain ⟨hsum, hnodup⟩ := runPoll_wf bs
    refine ⟨hsum, hnodup, ?_⟩
    have := foldl_collectBallot_tally_le bs PollState.start
    simpa [runPoll, PollState.start] using this

/-- Witness for C1 at concrete inputs: voter 7 votes yes, votes yes again
(ignored), voter 9 votes no — the duplicate ballot leaves the state
unchanged, and the 1-1 tie fails. -/
theorem vote_simple_majority_one_ballot_per_identity_witness :
    collectBallot ⟨[7], 1, 0⟩ ⟨7, true⟩ = ⟨[7], 1, 0⟩ ∧
      pollPassed (runPoll [⟨7, true⟩, ⟨7, true⟩, ⟨9, false⟩]) = false := by
  constructor
  · exact vote_simple_majority_one_ballot_per_identity.2.2.2.1
      ⟨[7], 1, 0⟩ ⟨7, true⟩ (by decide)
  · exact vote_simple_majority_one_ballot_per_identity.2.1
      [⟨7, true⟩, ⟨7, true⟩, ⟨9, false⟩] (by decide)

theorem queueWF_push {st : QueueState} (url : String) (userId : Nat)
    (h : QueueWF st) : QueueWF (pushJob st url userId) := by
  obtain ⟨hai, hci, hqs, hqb, hss, hsq, hsb⟩ := h
  refine ⟨hai, hci, ?_, ?_, hss, ?_, ?_⟩
  · show (st.youtubeQueue ++ [DownloadJob.mk url userId st.nextSeq]).Pairwise _
    rw [List.pairwise_append]
    refine ⟨hqs, by simp, ?_⟩
    intro a ha b hb
    simp only [List.mem_singleton] at hb
    subst hb
    exact hqb a ha
  · intro j hj
    simp only [pushJob, List.mem_append, List.mem_singleton] at hj
    rcases hj with hj | hj
    · exact Nat.lt_succ_of_lt (hqb j hj)
    · subst hj; exact Nat.lt_succ_self _
  · intro s hs j hj
    simp only [pushJob, List.mem_append, List.mem_singleton] at hj
    rcases hj with hj | hj
    · exact hsq s hs j hj
    · subst hj; exact hsb s hs
  · intro s hs
    exact Nat.lt_succ_of_lt (hsb s hs)

theorem queueWF_process {st : QueueState} (h : QueueWF st) :
    QueueWF (processQueueStep st) := by
  obtain ⟨hai, hci, hqs, hqb, hss, hsq, hsb⟩ := h
  unfold processQueueStep
  by_cases ha : st.isYoutubeDownloadActive
  · simpa [ha] using QueueWF.mk hai hci hqs hqb hss hsq hsb
  · simp only [ha, if_false, Bool.false_eq_true]
    cases hq : st.youtubeQueue with
    | nil => exact ⟨hai, hci, hqs, hqb, hss, hsq, hsb⟩
    | cons j rest =>
        rw [hq] at hqs hqb
        have hhead : ∀ k ∈ rest, j.seq < k.seq := (List.pairwise_cons.mp hqs).1
        refine ⟨by simp, by simp, (List.pairwise_cons.mp hqs).2, ?_, ?_, ?_, ?_⟩
        · intro k hk
          exact hqb k (List.mem_cons_of_mem j hk)
        · show (st.startedSeqs ++ [j.seq]).Pairwise _
          rw [List.pairwise_append]
          refine ⟨hss, by simp, ?_⟩
          intro a haa b hb
          simp only [List.mem_singleton] at hb
          subst hb
          exact hsq a haa j (hq ▸ List.mem_cons_self j rest)
        · intro s hs k hk
          simp only [List.mem_append, List.mem_singleton] at hs
          rcases hs with hs | hs
          · exact hsq s hs k (hq ▸ List.mem_cons_of_mem j hk)
          · subst hs; exact hhead k hk
        · intro s hs
          simp only [List.mem_append, List.mem_singleton] at hs
          rcases hs with hs | hs
          · exact hsb s hs
          · subst hs; exact hqb j (List.mem_cons_self j rest)

theorem queueWF_step {st : QueueState} (e : QueueEvent) (h : QueueWF st) :
    QueueWF (queueStep st e) := by
  obtain ⟨hai, hci, hqs, hqb, hss, hsq, hsb⟩ := h
  cases e with
  | push url userId =>
      exact queueWF_push url userId ⟨hai, hci, hqs, hqb, hss, hsq, hsb⟩
  | process => exact queueWF_process ⟨hai, hci, hqs, hqb, hss, hsq, hsb⟩
  | finish =>
      unfold queueStep
      by_cases ha : st.isYoutubeDownloadActive
      · simp only [ha, if_true]
        exact ⟨by simp [finishCurrent], by simp [finishCurrent], hqs, hqb, hss, hsq, hsb⟩
      · simp only [ha]
        exact ⟨hai, hci, hqs, hqb, hss, hsq, hsb⟩
  | cancelUser userId =>
      refine ⟨hai, ?_, ?_, ?_, hss, ?_, hsb⟩
      · show (if st.isYoutubeDownloadActive &&
              jobBelongsTo st.currentDownloadJob userId &&
              st.currentAbortController.isSome
            then some true else st.currentAbortController).isSome =
          st.isYoutubeDownloadActive
        by_cases hc : (st.isYoutubeDownloadActive &&
            jobBelongsTo st.currentDownloadJob userId &&
            st.currentAbortController.isSome) = true
        · rw [if_pos hc]
          simp only [Bool.and_eq_true] at hc
          simp [hc.1.1]
        · rw [if_neg hc]; exact hci
      · exact List.Pairwise.filter _ hqs
      · intro j hj
        exact hqb j (List.mem_of_mem_filter hj)
      · intro s hs j hj
        exact hsq s hs j (List.mem_of_mem_filter hj)
  | cancelAll =>
      refine ⟨hai, ?_, by simp [queueStep, cancelAllDownloads],
        by simp [queueStep, cancelAllDownloads], hss,
        by simp [queueStep, cancelAllDownloads], hsb⟩
      show (if st.isYoutubeDownloadActive && st.currentAbortController.isSome
          then some true else st.currentAbortController).isSome =
        st.isYoutubeDownloadActive
      by_cases hc : (st.isYoutubeDownloadActive &&
          st.currentAbortController.isSome) = true
      · rw [if_pos hc]
        simp only [Bool.and_eq_true] at hc
        simp [hc.1]
      · rw [if_neg hc]; exact hci

theorem foldl_queueStep_wf (es : List QueueEvent) {st : QueueState}
    (h : QueueWF st) : QueueWF (es.foldl queueStep st) := by
  induction es generalizing st with
  | nil => exact h
  | cons e rest ih => exact ih (queueWF_step e h)

theorem runQueue_wf (es : List QueueEvent) : QueueWF (runQueue es) := by
  refine foldl_queueStep_wf es ?_
  exact ⟨rfl, rfl, List.Pairwise.nil, by simp [QueueState.boot],
    List.Pairwise.nil, by simp [QueueState.boot], by simp [QueueState.boot]⟩

/-- C2: over every event sequence from boot, the download lock agrees with
the presence of a current job (so 0 or 1 jobs are Active, never more),
jobs are started in strict arrival order, every started job arrived before
everything still queued, and when the Active job reaches a terminal state
(`finally` block, then the `processYoutubeQueue` run it schedules) the next
queued job, if any, is dequeued and started. -/
theorem downloadQueue_concurrency_one_fifo :
    (∀ es : List QueueEvent,
        (runQueue es).isYoutubeDownloadActive =
            (runQueue es).currentDownloadJob.isSome ∧
          (runQueue es).startedSeqs.Pairwise (· < ·) ∧
          (∀ s ∈ (runQueue es).startedSeqs,
            ∀ j ∈ (runQueue es).youtubeQueue, s < j.seq)) ∧
    (∀ (es : List QueueEvent) (j : DownloadJob) (rest : List DownloadJob),
        (runQueue es).isYoutubeDownloadActive = true →
        (runQueue es).youtubeQueue = j :: rest →
          (queueStep (queueStep (runQueue es) .finish) .process).currentDownloadJob
              = some j ∧
            (queueStep (queueStep (runQueue es) .finish) .process).youtubeQueue
              = rest ∧
            (queueStep (queueStep (runQueue es) .finish) .process).isYoutubeDownloadActive
              = true) := by
  constructor
  · intro es
    obtain ⟨hai, _, _, _, hss, hsq, _⟩ := runQueue_wf es
    exact ⟨hai, hss, hsq⟩
  · intro es j rest hactive hq
    simp only [queueStep, hactive, if_true]
    simp only [processQueueStep, finishCurrent, hq]
    simp

/-- Witness for C2: enqueue two jobs, start the first; when it finishes,
the second is dequeued and started. -/
theorem downloadQueue_concurrency_one_fifo_witness :
    (queueStep (queueStep
        (runQueue [.push "a" 1, .push "b" 2, .process]) .finish)
      .process).currentDownloadJob = some ⟨"b", 2, 1⟩ :=
  (downloadQueue_concurrency_one_fifo.2
    [.push "a" 1, .push "b" 2, .process] ⟨"b", 2, 1⟩ [] rfl rfl).1

/-- C7: per-requester cancellation filters exactly the requester's jobs out
of the queue (everything else stays, in its original order), never touches
the current-job reference, and aborts the active download precisely when it
was already aborted or the active job belongs to the requester; bulk
cancellation clears the whole queue and aborts any active download, and
after the aborted job settles there is no Active job and the queue stays
empty — the follow-up `processYoutubeQueue` run finds nothing to start. -/
theorem cancel_per_requester_and_bulk :
    (∀ (st : QueueState) (userId : Nat),
        (cancelUserDownloads st userId).youtubeQueue =
            st.youtubeQueue.filter (fun j => j.userId != userId) ∧
          (cancelUserDownloads st userId).currentDownloadJob =
            st.currentDownloadJob ∧
          ((cancelUserDownloads st userId).currentAbortController = some true ↔
            (st.currentAbortController = some true ∨
              (st.isYoutubeDownloadActive = true ∧
                jobBelongsTo st.currentDownloadJob userId = true ∧
                st.currentAbortController.isSome = true)))) ∧
    (∀ st : QueueState,
        (cancelAllDownloads st).youtubeQueue = [] ∧
          (st.isYoutubeDownloadActive = true →
            st.currentAbortController.isSome = true →
            (cancelAllDownloads st).currentAbortController = some true)) ∧
    (∀ es : List QueueEvent,
        (queueStep (queueStep (runQueue es) .cancelAll) .finish).youtubeQueue
            = [] ∧
          (queueStep (queueStep (runQueue es) .cancelAll) .finish).isYoutubeDownloadActive
            = false ∧
          (queueStep (queueStep (runQueue es) .cancelAll) .finish).currentDownloadJob
            = none ∧
          processQueueStep (queueStep (queueStep (runQueue es) .cancelAll) .finish)
            = queueStep (queueStep (runQueue es) .cancelAll) .finish) := by
  refine ⟨?_, ?_, ?_⟩
  · intro st userId
    refine ⟨rfl, rfl, ?_⟩
    show (if st.isYoutubeDownloadActive &&
          jobBelongsTo st.currentDownloadJob userId &&
          st.currentAbortController.isSome
        then some true else st.currentAbortController) = some true ↔ _
    by_cases hc : (st.isYoutubeDownloadActive &&
        jobBelongsTo st.currentDownloadJob userId &&
        st.currentAbortController.isSome) = true
    · rw [if_pos hc]
      simp only [Bool.and_eq_true] at hc
      simp [hc.1.1, hc.1.2, hc.2]
    · rw [if_neg hc]
      simp only [Bool.and_eq_true, not_and] at hc
      constructor
      · exact fun h => Or.inl h
      · rintro (h | ⟨h1, h2, h3⟩)
        · exact h
        · exact absurd h3 (hc ⟨h1, h2⟩)
  · intro st
    refine ⟨rfl, ?_⟩
    intro h1 h2
    show (if st.isYoutubeDownloadActive && st.currentAbortController.isSome
        then some true else st.currentAbortController) = some true
    simp [h1, h2]
  · intro es
    obtain ⟨hai, _, _, _, _, _, _⟩ := runQueue_wf es
    by_cases ha : (runQueue es).isYoutubeDownloadActive
    · simp only [queueStep, cancelAllDownloads, ha, if_true]
      simp [processQueueStep, finishCurrent]
    · have hnone : (runQueue es).currentDownloadJob = none := by
        cases hcur : (runQueue es).currentDownloadJob with
        | none => rfl
        | some j =>
            rw [hcur] at hai
            simp only [Option.isSome_some] at hai
            exact absurd hai ha
      simp only [queueStep, cancelAllDownloads]
      simp only [Bool.not_eq_true] at ha
      simp [ha, hnone, processQueueStep, finishCurrent]

/-- Witness for C7: queue [job of user 1 active, job of user 2 queued];
`cancel(requester=1)` aborts the active job and leaves user 2's job queued;
`cancelAll` after any trace settles to an empty, inactive queue. -/
theorem cancel_per_requester_and_bulk_witness :
    ((cancelUserDownloads
        ⟨[⟨"b", 2, 1⟩], true, some ⟨"a", 1, 0⟩, some false, [0], 2⟩ 1).currentAbortController
        = some true) ∧
      ((cancelUserDownloads
        ⟨[⟨"b", 2, 1⟩], true, some ⟨"a", 1, 0⟩, some false, [0], 2⟩ 1).youtubeQueue
        = [⟨"b", 2, 1⟩]) ∧
      (queueStep (queueStep (runQueue [.push "a" 1, .process]) .cancelAll)
          .finish).isYoutubeDownloadActive = false := by
  refine ⟨?_, ?_, ?_⟩
  · exact (cancel_per_requester_and_bulk.1
      ⟨[⟨"b", 2, 1⟩], true, some ⟨"a", 1, 0⟩, some false, [0], 2⟩ 1).2.2.mpr
      (Or.inr ⟨rfl, by decide, rfl⟩)
  · exact ((cancel_per_requester_and_bulk.1
      ⟨[⟨"b", 2, 1⟩], true, some ⟨"a", 1, 0⟩, some false, [0], 2⟩ 1).1).trans
      (by decide)
  · exact (cancel_per_requester_and_bulk.2.2 [.push "a" 1, .process]).2.1

/-- C10: while Custom mode is inactive both `!cancel` and `!cancelall`
reply with the informational refusal and return the queue state untouched
(whatever its contents, including a still-active download enqueued
earlier). -/
theorem cancel_commands_require_custom_mode :
    (∀ (cfg : Bool) (st : QueueState) (userId : Nat),
        cancelCommand false cfg st userId = (st, .notCustomMode)) ∧
    (∀ (cfg : Bool) (st : QueueState),
        cancelAllCommand true false cfg st = (st, .notCustomMode)) := by
  exact ⟨fun cfg st userId => rfl, fun cfg st => rfl⟩

/-- Witness for C10 at a concrete state: `!cancel` in Scheduled mode leaves
the boot queue untouched and replies with the refusal. -/
theorem cancel_commands_require_custom_mode_witness :
    cancelCommand false true QueueState.boot 7
      = (QueueState.boot, .notCustomMode) :=
  cancel_commands_require_custom_mode.1 true QueueState.boot 7

/-- C3: a throwing transition script leaves the Mode flag unchanged on both
vote-driven transitions — a passed switch-to-custom poll whose script
throws leaves `isCustomModeActive = false` and reports `scriptFailed`, and
an `endCustomMode` run whose switch-back script throws leaves
`isCustomModeActive = true`, returns `false` and reports the failure. -/
theorem vote_transition_script_failure_keeps_mode :
    (∀ (st : ModeState) (yesVotes noVotes : Nat),
        st.isCustomModeActive = false →
          (customPollEnd st yesVotes noVotes .err).1.isCustomModeActive
              = false ∧
            (noVotes < yesVotes →
              customPollEnd st yesVotes noVotes .err
                = (st, .scriptFailed))) ∧
    (∀ st : ModeState, st.isCustomModeActive = true →
        (endCustomMode st .err).1.isCustomModeActive = true ∧
          (endCustomMode st .err).2.1 = false ∧
          (endCustomMode st .err).2.2 = .scriptFailed) := by
  constructor
  · intro st yesVotes noVotes hmode
    unfold customPollEnd
    by_cases hp : noVotes < yesVotes
    · simp [hp, hmode]
    · simp [hp, hmode]
  · intro st hmode
    unfold endCustomMode
    simp [hmode]

/-- Witness for C3: a concrete Scheduled state with a 2-1 passed poll and a
throwing script stays Scheduled; a concrete Custom state with a throwing
switch-back script stays Custom. -/
theorem vote_transition_script_failure_keeps_mode_witness :
    customPollEnd ⟨false, 0, false, false, false⟩ 2 1 .err
        = (⟨false, 0, false, false, false⟩, .scriptFailed) ∧
      (endCustomMode ⟨true, 4, true, true, false⟩ .err).1.isCustomModeActive
        = true := by
  constructor
  · exact (vote_transition_script_failure_keeps_mode.1
      ⟨false, 0, false, false, false⟩ 2 1 rfl).2 (by decide)
  · exact (vote_transition_script_failure_keeps_mode.2
      ⟨true, 4, true, true, false⟩ rfl).1

/-- C4 counterexample: at a concrete Scheduled state, the admin-forced
toggle flips the Mode flag to Custom but executes no transition script at
all — `scriptsRun` is empty, refuting the claim that the orchestrator runs
the corresponding transition script during an admin-forced transition. -/
theorem toggle_counterexample :
    (toggleCommand true true ⟨false, 3, false, false, false⟩).scriptsRun = []
      ∧ (toggleCommand true true
          ⟨false, 3, false, false, false⟩).state.isCustomModeActive = true := by
  decide

/-- C4 amended: an admin-forced toggle flips the Mode flag to the opposite
mode unconditionally and runs no transition script at all (the reply notes
the scripts were NOT run); since no script is invoked there is no script
outcome to warn about. -/
theorem toggle_flips_mode_without_scripts (st : ModeState) :
    (toggleCommand true true st).state.isCustomModeActive
        = !st.isCustomModeActive ∧
      (toggleCommand true true st).scriptsRun = [] ∧
      (toggleCommand true true st).state.consecutiveSkipVotes = 0 ∧
      (toggleCommand true true st).reply =
        (if st.isCustomModeActive then .toggledFromCustom
          else .toggledToCustom) := by
  cases hm : st.isCustomModeActive <;> simp [toggleCommand, hm]

/-- Witness for C4 amended at a concrete Custom-mode state. -/
theorem toggle_flips_mode_without_scripts_witness :
    (toggleCommand true true
        ⟨true, 2, true, true, false⟩).state.isCustomModeActive = false ∧
      (toggleCommand true true ⟨true, 2, true, true, false⟩).scriptsRun
        = [] := by
  constructor
  · exact (toggle_flips_mode_without_scripts ⟨true, 2, true, true, false⟩).1
  · exact (toggle_flips_mode_without_scripts ⟨true, 2, true, true, false⟩).2.1

/-- C5: the skip bypass fires exactly when the fetched venue is a voice
channel with exactly two non-bot members — with one, three, or any count
other than two (and on non-voice or failed fetches) a poll is started
instead. -/
theorem skip_bypass_requires_exactly_two_humans :
    (∀ n : Nat, skipRoute (.voice n)
        = (if n = 2 then .bypassRunScript else .startPoll)) ∧
      skipRoute (.voice 2) = .bypassRunScript ∧
      skipRoute (.voice 1) = .startPoll ∧
      skipRoute (.voice 3) = .startPoll ∧
      skipRoute .notVoice = .startPoll ∧
      skipRoute .fetchFailed = .startPoll := by
  refine ⟨?_, rfl, rfl, rfl, rfl, rfl⟩
  intro n
  simp [skipRoute]

/-- Witness for C5 at a concrete count: five humans in the voice channel
start a poll. -/
theorem skip_bypass_requires_exactly_two_humans_witness :
    skipRoute (.voice 5) = .startPoll :=
  (skip_bypass_requires_exactly_two_humans.1 5).trans (by decide)

/-- C6 counterexample: after one passed skip vote the streak is 1, so the
second skip vote runs with duration 25000 ms = max(floor, base − 1·dec),
not max(floor, base − 2·dec) = 20000 ms as claimed; and a skip-script
failure in the two-user bypass path leaves the streak at 3 instead of
resetting it to zero. -/
theorem skip_duration_counterexample :
    currentSkipPollTimeoutMs (runSkipStreak [.poll 1 0 .ok]) = 25000 ∧
      max MIN_SKIP_POLL_DURATION_MS
          (SKIP_POLL_TIMEOUT_MS - 2 * SKIP_POLL_DECREMENT_MS) = 20000 ∧
      (25000 : Int) ≠ 20000 ∧
      skipStreakStep 3 (.bypass .err) = 3 := by
  refine ⟨by decide, by decide, by decide, by decide⟩

/-- C6 amended: a skip vote started with streak `s` runs for
max(5000, 30000 − s·5000) ms, a quantity that shrinks with the streak down
to the 5000 ms floor; the second of two consecutively passing skip votes
runs for max(floor, base − 1·dec) = 25000 ms and the vote started after the
two passes for max(floor, base − 2·dec) = 20000 ms; a failed or tied poll
and a script failure in the poll path reset the streak to zero, while a
script failure in the bypass path leaves it unchanged. -/
theorem skip_duration_shrinks_with_streak :
    (∀ s t : Nat, s ≤ t →
        currentSkipPollTimeoutMs t ≤ currentSkipPollTimeoutMs s) ∧
      (∀ streak : Nat,
        MIN_SKIP_POLL_DURATION_MS ≤ currentSkipPollTimeoutMs streak) ∧
      currentSkipPollTimeoutMs (runSkipStreak []) = 30000 ∧
      currentSkipPollTimeoutMs (runSkipStreak [.poll 1 0 .ok]) = 25000 ∧
      currentSkipPollTimeoutMs
          (runSkipStreak [.poll 1 0 .ok, .poll 2 0 .ok]) = 20000 ∧
      (∀ (streak yesVotes noVotes : Nat), noVotes < yesVotes →
        skipStreakStep streak (.poll yesVotes noVotes .err) = 0) ∧
      (∀ (streak yesVotes noVotes : Nat), yesVotes ≤ noVotes →
        skipStreakStep streak (.poll yesVotes noVotes .ok) = 0) ∧
      (∀ streak : Nat, skipStreakStep streak (.bypass .err) = streak) := by
  refine ⟨?_, ?_, by decide, by decide, by decide, ?_, ?_, fun streak => rfl⟩
  · intro s t hst
    unfold currentSkipPollTimeoutMs
    have hc : (s : Int) * SKIP_POLL_DECREMENT_MS
        ≤ (t : Int) * SKIP_POLL_DECREMENT_MS := by
      apply mul_le_mul_of_nonneg_right
      · exact_mod_cast hst
      · norm_num [SKIP_POLL_DECREMENT_MS]
    apply max_le_max le_rfl
    omega
  · intro streak
    exact le_max_left _ _
  · intro streak yesVotes noVotes hlt
    simp [skipStreakStep, hlt]
  · intro streak yesVotes noVotes hle
    simp [skipStreakStep, Nat.not_lt.mpr hle]

/-- Witness for C6 amended: the monotonicity and reset clauses at concrete
streaks and tallies. -/
theorem skip_duration_shrinks_with_streak_witness :
    currentSkipPollTimeoutMs 4 ≤ currentSkipPollTimeoutMs 1 ∧
      skipStreakStep 5 (.poll 3 1 .err) = 0 ∧
      skipStreakStep 5 (.poll 1 1 .ok) = 0 := by
  refine ⟨?_, ?_, ?_⟩
  · exact skip_duration_shrinks_with_streak.1 1 4 (by decide)
  · exact skip_duration_shrinks_with_streak.2.2.2.2.2.1 5 3 1 (by decide)
  · exact skip_duration_shrinks_with_streak.2.2.2.2.2.2.1 5 1 1 (by decide)

theorem mem_of_mem_dropWhile {p : Char → Bool} {c : Char} {l : List Char}
    (h : c ∈ l.dropWhile p) : c ∈ l :=
  (List.dropWhile_sublist p).subset h

theorem mem_of_mem_trimUnderscores {c : Char} {l : List Char}
    (h : c ∈ trimUnderscores l) : c ∈ l := by
  unfold trimUnderscores at h
  rw [List.mem_reverse] at h
  have h2 := mem_of_mem_dropWhile h
  rw [List.mem_reverse] at h2
  exact mem_of_mem_dropWhile h2

theorem mem_of_mem_jsTrim {c : Char} {l : List Char}
    (h : c ∈ jsTrim l) : c ∈ l := by
  unfold jsTrim at h
  rw [List.mem_reverse] at h
  have h2 := mem_of_mem_dropWhile h
  rw [List.mem_reverse] at h2
  exact mem_of_mem_dropWhile h2

theorem replaceInvalidTail_chars : ∀ (l : List Char) (c : Char),
    c ∈ replaceInvalidTail l → invalidPathChar c = false
  | [], c => by simp [replaceInvalidTail]
  | [a], c => by
      unfold replaceInvalidTail
      split_ifs with h1 h2 <;> intro hmem <;>
        rcases List.mem_singleton.mp hmem with rfl
      · decide
      · decide
      · simp only [Bool.not_eq_true] at h1
        exact h1
  | a :: d :: rest, c => by
      unfold replaceInvalidTail
      split_ifs with h1 h2 <;> intro hmem <;>
        rcases List.mem_cons.mp hmem with rfl | hd
      · decide
      · exact replaceInvalidTail_chars (d :: rest) c hd
      · decide
      · exact replaceInvalidTail_chars rest c hd
      · simp only [Bool.not_eq_true] at h1
        exact h1
      · exact replaceInvalidTail_chars (d :: rest) c hd

theorem replaceInvalid_chars (l : List Char) (c : Char)
    (h : c ∈ replaceInvalid l) : invalidPathChar c = false := by
  cases l with
  | nil => simp [replaceInvalid] at h
  | cons a rest =>
      simp only [replaceInvalid] at h
      split_ifs at h with h1 h2 h3 h4
      · rcases List.mem_cons.mp h with rfl | hd
        · decide
        · exact replaceInvalidTail_chars rest c hd
      · rcases List.mem_cons.mp h with rfl | hd
        · decide
        · exact replaceInvalidTail_chars rest.tail c hd
      · rcases List.mem_singleton.mp h with rfl
        decide
      · rcases List.mem_cons.mp h with rfl | hd
        · decide
        · exact replaceInvalidTail_chars rest c hd
      · rcases List.mem_cons.mp h with rfl | hd
        · simp only [Bool.not_eq_true] at h1
          exact h1
        · exact replaceInvalidTail_chars rest c hd

theorem collapseWhitespace_chars {P : Char → Prop} (hP : P '_') :
    ∀ (b : Bool) (l : List Char), (∀ c ∈ l, P c) →
      ∀ c ∈ collapseWhitespace b l, P c
  | _, [], _ => by simp [collapseWhitespace]
  | b, a :: rest, h => by
      unfold collapseWhitespace
      have hrest : ∀ c ∈ rest, P c :=
        fun d hd => h d (List.mem_cons_of_mem a hd)
      split_ifs with h1 h2 <;> intro c hc
      · exact collapseWhitespace_chars hP true rest hrest c hc
      · rcases List.mem_cons.mp hc with rfl | hd
        · exact hP
        · exact collapseWhitespace_chars hP true rest hrest c hd
      · rcases List.mem_cons.mp hc with rfl | hd
        · exact h c (List.mem_cons_self c rest)
        · exact collapseWhitespace_chars hP false rest hrest c hd

theorem isPathSep_invalid {c : Char} (h : isPathSep c = true) :
    invalidPathChar c = true := by
  simp only [isPathSep, Bool.or_eq_true, decide_eq_true_eq] at h
  rcases h with rfl | rfl <;> decide

theorem mem_cleanSubfolderChars_invalid {name : String} {c : Char}
    (hc : c ∈ cleanSubfolderChars name) : invalidPathChar c = false := by
  have hc2 := mem_of_mem_jsTrim hc
  have hc3 := mem_of_mem_trimUnderscores hc2
  exact collapseWhitespace_chars (P := fun d => invalidPathChar d = false)
    (by decide) false _ (replaceInvalid_chars _) c hc3

set_option maxHeartbeats 1000000 in
theorem sanitizeSubfolderName_clean (name s : String)
    (h : sanitizeSubfolderName name = some s) :
    s.length ≤ 50 ∧ s ≠ "" ∧
      (∀ c ∈ s.data, invalidPathChar c = false) ∧
      (∀ c ∈ s.data, isPathSep c = false) := by
  unfold sanitizeSubfolderName at h
  split_ifs at h with h0 h1
  simp only [Option.some.injEq] at h
  subst h
  refine ⟨?_, ?_, ?_, ?_⟩
  · show (String.mk ((cleanSubfolderChars name).take 50)).length ≤ 50
    simp [String.length, List.length_take]
  · intro habs
    have htake : (cleanSubfolderChars name).take 50 = [] := by
      have := congrArg String.data habs
      simpa using this
    rcases List.take_eq_nil_iff.mp htake with h50 | hnil
    · exact absurd h50 (by decide)
    · exact h1 (by rw [hnil]; rfl)
  · intro c hc
    exact mem_cleanSubfolderChars_invalid
      (List.take_subset 50 (cleanSubfolderChars name) hc)
  · intro c hc
    have hinv := mem_cleanSubfolderChars_invalid
      (List.take_subset 50 (cleanSubfolderChars name) hc)
    by_contra habs
    simp only [Bool.not_eq_false] at habs
    rw [isPathSep_invalid habs] at hinv
    exact absurd hinv (by decide)

/-- C8: a sanitized subfolder name is at most 50 characters, non-empty, and
free of every disallowed character (in particular of path separators, so no
traversal component survives); the resolution step either uses the
sanitized name after the directory check passes or falls back to the root
download folder; whenever the sanitized name is empty or the directory
check fails the result is the root folder with the warning flag set, and a
warning-flagged fallback puts the warning line into the initial status
message — in every case a resolution is produced, never a rejection. -/
theorem subfolder_sanitised_validated_with_fallback :
    (∀ name s : String, sanitizeSubfolderName name = some s →
        s.length ≤ 50 ∧ s ≠ "" ∧
          (∀ c ∈ s.data, invalidPathChar c = false) ∧
          (∀ c ∈ s.data, isPathSep c = false)) ∧
    (∀ (isDir : String → Bool) (root req : String),
        ((resolveDownloadPath isDir root (some req)).finalDownloadPath = root ∧
            (resolveDownloadPath isDir root (some req)).subfolderUsedName
              = none) ∨
          ∃ s, sanitizeSubfolderName req = some s ∧
            isDir (winJoin root s) = true ∧
            resolveDownloadPath isDir root (some req)
              = ⟨winJoin root s, some s, false⟩) ∧
    (∀ (isDir : String → Bool) (root req : String),
        sanitizeSubfolderName req = none →
          resolveDownloadPath isDir root (some req) = ⟨root, none, true⟩) ∧
    (∀ (isDir : String → Bool) (root req s : String),
        sanitizeSubfolderName req = some s →
          isDir (winJoin root s) = false →
          resolveDownloadPath isDir root (some req) = ⟨root, none, true⟩) ∧
    (∀ (r : SubfolderResolution) (req : String),
        r.subfolderWarningSent = true → r.subfolderUsedName = none →
          initialStatusHasWarning r (some req) = true) := by
  refine ⟨sanitizeSubfolderName_clean, ?_, ?_, ?_, ?_⟩
  · intro isDir root req
    simp only [resolveDownloadPath]
    cases hs : sanitizeSubfolderName req with
    | none => exact Or.inl ⟨rfl, rfl⟩
    | some s =>
        by_cases hd : isDir (winJoin root s)
        · exact Or.inr ⟨s, rfl, hd, by simp [hd]⟩
        · simp only [Bool.not_eq_true] at hd
          exact Or.inl (by simp [hd])
  · intro isDir root req hs
    simp only [resolveDownloadPath]
    rw [hs]
  · intro isDir root req s hs hd
    simp only [resolveDownloadPath]
    rw [hs]
    simp [hd]
  · intro r req hw hu
    unfold initialStatusHasWarning
    rw [hu]
    simp [hw]

/-- Witness for C8 at concrete inputs: the user asks for subfolder
`"../My Clips"` on a filesystem with no directories — the name sanitises to
`"My_Clips"`, the directory check fails, the job resolves to the root
folder with the warning flag, and the status message carries the warning
line. -/
theorem subfolder_sanitised_validated_with_fallback_witness :
    sanitizeSubfolderName "../My Clips" = some "My_Clips" ∧
      (("My_Clips" : String).length ≤ 50 ∧ ("My_Clips" : String) ≠ "" ∧
        (∀ c ∈ ("My_Clips" : String).data, invalidPathChar c = false) ∧
        (∀ c ∈ ("My_Clips" : String).data, isPathSep c = false)) ∧
      resolveDownloadPath (fun _ => false) "D:\\Videos" (some "../My Clips")
        = ⟨"D:\\Videos", none, true⟩ ∧
      initialStatusHasWarning ⟨"D:\\Videos", none, true⟩ (some "../My Clips")
        = true := by
  refine ⟨by decide, ?_, ?_, ?_⟩
  · exact subfolder_sanitised_validated_with_fallback.1
      "../My Clips" "My_Clips" (by decide)
  · exact subfolder_sanitised_validated_with_fallback.2.2.2.1
      (fun _ => false) "D:\\Videos" "../My Clips" "My_Clips" (by decide) rfl
  · exact subfolder_sanitised_validated_with_fallback.2.2.2.2
      ⟨"D:\\Videos", none, true⟩ "../My Clips" rfl rfl

/-- C9 counterexample: with the cached handle named "Custom Channel", in
Scheduled status with its start time already passed, a rename to the same
computed name makes no fetch and no rename call but does make external
calls — `setStatus(Active)` followed by the state-refresh `fetch(true)` —
so "no external call is performed" fails at this concrete input. -/
theorem event_rename_counterexample :
    computeFinalEventName true "Custom Channel" "Custom Channel"
        = some "Custom Channel" ∧
      (updateEventNameInternal true true
          (some ⟨"Custom Channel", .scheduled, true⟩)
          ⟨none, none, false, false,
            some ⟨"Custom Channel", .active, true⟩, false⟩
          "Custom Channel").calls = [.setActive, .refreshEvent] ∧
      ([EventCall.setActive, .refreshEvent] : List EventCall) ≠ [] := by
  refine ⟨by decide, by decide, by decide⟩

/-- C9 amended: when the computed final name (custom-mode marker and
100-character truncation included) already equals the cached handle's name
and the cached handle is not terminal, the rename is skipped entirely —
no state fetch and no renaming `edit` call is made.  If the cached event
is not in the Scheduled status with its start time passed, no external
call at all is performed, the run succeeds and the cached handle is left
as it was.  If it is still Scheduled past its start time, the run calls
`setStatus(Active)` and, when that resolves, the state refresh
`fetch(true)` whose result becomes the new cached handle: two external
calls, neither a rename, succeeding only when both resolve; a throw from
either lands in the catch and the run reports failure. -/
theorem event_rename_skipped_when_name_matches (custom : Bool)
    (h : EventHandle) (env : EventEnv) (newName : String)
    (hterm : h.status.isTerminal = false)
    (hmatch : computeFinalEventName custom h.name newName = some h.name) :
    (EventCall.fetchEvent ∉
        (updateEventNameInternal true custom (some h) env newName).calls) ∧
      (∀ n : String, EventCall.editName n ∉
        (updateEventNameInternal true custom (some h) env newName).calls) ∧
      (¬(h.status = .scheduled ∧ h.startPassed = true) →
        (updateEventNameInternal true custom (some h) env newName).calls = []
          ∧ (updateEventNameInternal true custom (some h) env newName).ok
            = true
          ∧ (updateEventNameInternal true custom (some h) env newName).handle
            = some h) ∧
      ((h.status = .scheduled ∧ h.startPassed = true) →
        (env.setActiveThrows = true →
          (updateEventNameInternal true custom (some h) env newName).calls
              = [.setActive] ∧
            (updateEventNameInternal true custom (some h) env newName).ok
              = false) ∧
        (∀ r : EventHandle, env.setActiveThrows = false →
          env.refreshed = some r →
          (updateEventNameInternal true custom (some h) env newName).calls
              = [.setActive, .refreshEvent] ∧
            (updateEventNameInternal true custom (some h) env newName).ok
              = true ∧
            (updateEventNameInternal true custom (some h) env newName).handle
              = some r) ∧
        (env.setActiveThrows = false → env.refreshed = none →
          (updateEventNameInternal true custom (some h) env newName).calls
              = [.setActive, .refreshEvent] ∧
            (updateEventNameInternal true custom (some h) env newName).ok
              = false)) := by
  have hred : updateEventNameInternal true custom (some h) env newName
      = activate h (some h) env [] := by
    unfold updateEventNameInternal
    simp only [Bool.not_true, Bool.false_eq_true, if_false, hterm, hmatch]
    unfold editAndActivate
    simp [bne_self_eq_false]
  rw [hred]
  by_cases hact : h.status = EventStatus.scheduled ∧ h.startPassed = true
  · have hcond : (decide (h.status = EventStatus.scheduled)
        && h.startPassed) = true := by
      simp [hact.1, hact.2]
    cases hsa : env.setActiveThrows with
    | true =>
        have ha : activate h (some h) env []
            = ⟨if env.errorClearsHandle then none else some h,
                [.setActive], false⟩ := by
          unfold activate catchReturn
          simp [hcond, hsa]
        rw [ha]
        refine ⟨by simp, by simp, fun hc => absurd hact hc, ?_⟩
        intro _
        refine ⟨fun _ => ⟨rfl, rfl⟩, ?_, ?_⟩
        · intro r hthrow _
          exact absurd hthrow (by decide)
        · intro hthrow _
          exact absurd hthrow (by decide)
    | false =>
        cases hr : env.refreshed with
        | none =>
            have ha : activate h (some h) env []
                = ⟨if env.errorClearsHandle then none else some h,
                    [.setActive, .refreshEvent], false⟩ := by
              unfold activate catchReturn
              simp [hcond, hsa, hr]
            rw [ha]
            refine ⟨by simp, by simp, fun hc => absurd hact hc, ?_⟩
            intro _
            refine ⟨?_, ?_, fun _ _ => ⟨rfl, rfl⟩⟩
            · intro habs
              exact absurd habs (by decide)
            · intro r _ hsome
              exact Option.noConfusion hsome
        | some r0 =>
            have ha : activate h (some h) env []
                = ⟨some r0, [.setActive, .refreshEvent], true⟩ := by
              unfold activate
              simp [hcond, hsa, hr]
            rw [ha]
            refine ⟨by simp, by simp, fun hc => absurd hact hc, ?_⟩
            intro _
            refine ⟨?_, ?_, ?_⟩
            · intro habs
              exact absurd habs (by decide)
            · intro r _ hsome
              have heq : r0 = r := Option.some.inj hsome
              subst heq
              exact ⟨rfl, rfl, rfl⟩
            · intro _ hnone
              exact Option.noConfusion hnone
  · have hcond : (decide (h.status = EventStatus.scheduled)
        && h.startPassed) = false := by
      rcases Decidable.not_and_iff_or_not.mp hact with hs | hp
      · simp [hs]
      · simp only [Bool.not_eq_true] at hp
        simp [hp]
    have ha : activate h (some h) env [] = ⟨some h, [], true⟩ := by
      unfold activate
      simp [hcond]
    rw [ha]
    exact ⟨by simp, by simp, fun _ => ⟨rfl, rfl, rfl⟩,
      fun hc => absurd hc hact⟩

/-- Witness for C9 amended at concrete inputs: an Active handle named
"Movie Night" renamed to "Movie Night" makes no external call; a Scheduled
handle past its start time with a resolving activation and refresh makes
exactly the `setStatus(Active)` and refresh calls and succeeds. -/
theorem event_rename_skipped_when_name_matches_witness :
    (updateEventNameInternal true false
        (some ⟨"Movie Night", .active, false⟩)
        ⟨none, none, false, false, none, false⟩ "Movie Night").calls = [] ∧
      (updateEventNameInternal true false
        (some ⟨"Movie Night", .scheduled, true⟩)
        ⟨none, none, false, false,
          some ⟨"Movie Night", .active, true⟩, false⟩
        "Movie Night").calls = [.setActive, .refreshEvent] := by
  constructor
  · exact ((event_rename_skipped_when_name_matches false
      ⟨"Movie Night", .active, false⟩
      ⟨none, none, false, false, none, false⟩ "Movie Night"
      rfl (by decide)).2.2.1 (by decide)).1
  · exact (((event_rename_skipped_when_name_matches false
      ⟨"Movie Night", .scheduled, true⟩
      ⟨none, none, false, false,
        some ⟨"Movie Night", .active, true⟩, false⟩ "Movie Night"
      rfl (by decide)).2.2.2 ⟨rfl, rfl⟩).2.1
      ⟨"Movie Night", .active, true⟩ rfl rfl).1

end TVGuideBot
